import Mathlib

/-!
Verification of the boartty search-query compiler
(`boartty/search/parser.py`).

The compiler turns a token stream into a boolean predicate over the
relational cache (SQLAlchemy expressions in the source).  We embed:

* `Pred` — the predicate expression trees the per-term translators build
  (one constructor per distinct SQLAlchemy expression shape occurring in
  the source);
* `CompileError` — the errors a compile call can raise:
  `boartty.search.SearchSyntaxError` with its message, and the Python
  `AttributeError` that escapes `p_label_term` when `label_re` fails to
  match (calling `.group` on `None`);
* the pure per-term translator functions `p_age_term` … `p_limit_term`,
  translated line by line from the source production bodies;
* the grammar engine: the ply/yacc LALR parser with precedence
  `('left', 'NOT', 'NEG')` and default shift resolution for all other
  conflicts is rendered as a deterministic recursive-descent parser
  (`parseU`/`parseE`): unary `NOT`/`NEG` binds tighter than the binary
  tier, where `AND`, `OR` and juxtaposition (implicit conjunction, the
  `list_expr` production) all live, resolved shift-first, i.e.
  right-associated;
* the `label_re` regular expression as an explicit backtracking matcher.

The tokenizer lives in `boartty/search/tokenizer.py`, which is not part
of the sources under verification; the parser is therefore modelled as a
function of the token list (token kinds and lexer positions), which is
exactly the interface `yacc` consumes.
-/

namespace Boartty

/-- An approval/vote row context object appears joined against the user
and story tables; predicate leaves name the concrete column comparisons
found in the source.  `storyKeyIn filters` is
`story_table.c.key.in_(select([story_table.c.key]).where(and_(*filters)))`.
`true_` is the Python constant `True` (it occurs as a compiled predicate
twice in the source: the `limit` term result `(True == True)`, and the
file term conjunct `file_table.c.status is not None`, which compares the
Column object itself against `None` and is therefore always `True`). -/
inductive Pred where
  | and2 (a b : Pred)
  | or2 (a b : Pred)
  | or3 (a b c : Pred)
  | not1 (a : Pred)
  | true_
  | storyUpdatedLt (t : Int)
  | storyLastSeenGeMaxMinus (delta : Int)
  | storyIdEq (n : Int)
  | storyKeyIn (filters : List Pred)
  | storyBranchEq (s : String)
  | storyBranchMatches (pat : String)
  | refMatches (pat : String)
  | storyStatusIn (l : List String)
  | storyStatusNotIn (l : List String)
  | storyStatusEq (s : String)
  | storyStarredEqTrue
  | storyHeldEqTrue
  | userUsernameEq (s : String)
  | userEmailEq (s : String)
  | userNameEq (s : String)
  | userIdEq (n : Int)
  | approvalStoryKeyEqStoryKey
  | approvalUserKeyEqUserKey
  | approvalCategoryEq (s : String)
  | approvalValueEq (v : Int)
  | approvalValueGe (v : Int)
  | approvalValueLe (v : Int)
  | approvalValueNe (v : Int)
  | revisionStoryKeyEqStoryKey
  | revisionCommitEq (s : String)
  | revisionMessageLike (pat : String)
  | revisionMessageEq (s : String)
  | commentRevisionKeyEqRevisionKey
  | commentMessageEq (s : String)
  | messageRevisionKeyEqRevisionKey
  | messageDraftEqTrue
  | taskStoryKeyEqStoryKey
  | taskProjectKeyEq (n : Int)
  | projectNameEq (s : String)
  | projectNameLike (pat : String)
  | projectNameMatches (pat : String)
  | projectSubscribedEqTrue
  | tagNameEq (s : String)
  | tagNameMatches (pat : String)
  | filePathEq (s : String)
  | fileOldPathEq (s : String)
  | filePathMatches (pat : String)
  | fileOldPathMatches (pat : String)

/-- What a compile call can raise: the structured
`boartty.search.SearchSyntaxError` carrying its message string, or the
Python `AttributeError` escaping `p_label_term` when `label_re.match`
returns `None`. -/
inductive CompileError where
  | searchSyntaxError (message : String)
  | attributeError
  deriving DecidableEq

/-- Per-compile parse context: the requesting user's username
(`p.parser.username`) and the wall-clock instant `datetime.utcnow()`
read by the age/recentlyseen productions at parse time, in seconds. -/
structure Ctx where
  username : String
  now : Int

/-- Decimal value of a digit list (most significant first). -/
def decimalNat (ds : List Char) : Nat :=
  ds.foldl (fun acc c => acc * 10 + (c.toNat - 48)) 0

/-- Python `int(s)` on a string: optional surrounding whitespace, an
optional sign, then decimal digits; anything else raises (here: `none`).
(Underscore digit separators accepted by Python 3.6+ are not modelled;
no query term relies on them.) -/
def pyToInt (s : String) : Option Int :=
  let cs := ((s.data.dropWhile Char.isWhitespace).reverse.dropWhile
    Char.isWhitespace).reverse
  let signAndDigits : Int × List Char :=
    match cs with
    | '-' :: r => (-1, r)
    | '+' :: r => (1, r)
    | _ => (1, cs)
  if signAndDigits.2 ≠ [] ∧ signAndDigits.2.all Char.isDigit then
    some (signAndDigits.1 * Int.ofNat (decimalNat signAndDigits.2))
  else none

/-- Python `s.startswith(pre)`. -/
def startswith (s pre : String) : Bool :=
  pre.data.isPrefixOf s.data

/-- `age_to_delta` from the source: scale a count by the recognized unit
names, leaving it unchanged (seconds) for any unrecognized unit. -/
def age_to_delta (delta : Int) (unit : String) : Int :=
  if unit ∈ ["seconds", "second", "sec", "s"] then delta
  else if unit ∈ ["minutes", "minute", "min", "m"] then delta * 60
  else if unit ∈ ["hours", "hour", "hr", "h"] then delta * 60 * 60
  else if unit ∈ ["days", "day", "d"] then delta * 60 * 60 * 24
  else if unit ∈ ["weeks", "week", "w"] then delta * 60 * 60 * 24 * 7
  else if unit ∈ ["months", "month", "mon"] then delta * 60 * 60 * 24 * 30
  else if unit ∈ ["years", "year", "y"] then delta * 60 * 60 * 24 * 365
  else delta

/-- `p_age_term`: `story_table.c.updated < now - timedelta(seconds=delta)`. -/
def p_age_term (ctx : Ctx) (delta : Int) (unit : String) : Pred :=
  .storyUpdatedLt (ctx.now - age_to_delta delta unit)

/-- `p_recentlyseen_term`: `last_seen >= select(datetime(max(last_seen),
'-<delta> seconds'))`.  (The production also reads `utcnow()` but never
uses it.) -/
def p_recentlyseen_term (delta : Int) (unit : String) : Pred :=
  .storyLastSeenGeMaxMinus (age_to_delta delta unit)

/-- `p_story_term`: `story_table.c.id == value`. -/
def p_story_term (n : Int) : Pred :=
  .storyIdEq n

/-- `p_owner_term`: `self` resolves to the parse context's username,
anything else is a three-way literal OR over username/email/name. -/
def p_owner_term (ctx : Ctx) (v : String) : Pred :=
  if v = "self" then .userUsernameEq ctx.username
  else .or3 (.userUsernameEq v) (.userEmailEq v) (.userNameEq v)

/-- `p_reviewer_term`: membership over approvals joined to users; a
numeric argument (a NUMBER token, or a string accepted by `int()`)
matches the user id, `self` the context username, anything else the
three-way literal OR. -/
def p_reviewer_term (ctx : Ctx) (arg : Sum Int String) : Pred :=
  let tail : List Pred :=
    match arg with
    | .inl n => [.userIdEq n]
    | .inr s =>
      match pyToInt s with
      | some n => [.userIdEq n]
      | none =>
        if s = "self" then [.userUsernameEq ctx.username]
        else [.or3 (.userUsernameEq s) (.userEmailEq s) (.userNameEq s)]
  .storyKeyIn ([.approvalStoryKeyEqStoryKey, .approvalUserKeyEqUserKey] ++ tail)

/-- `p_commit_term`. -/
def p_commit_term (v : String) : Pred :=
  .storyKeyIn [.revisionStoryKeyEqStoryKey, .revisionCommitEq v]

/-- `p_project_term`: `^` switches literal equality to pattern match. -/
def p_project_term (v : String) : Pred :=
  if startswith v "^" then .projectNameMatches v
  else .projectNameEq v

/-- `p_projects_term`: `project_table.c.name.like('%s%%' % value)`. -/
def p_projects_term (v : String) : Pred :=
  .projectNameLike (v ++ "%")

/-- `p_project_key_term`. -/
def p_project_key_term (n : Int) : Pred :=
  .storyKeyIn [.taskStoryKeyEqStoryKey, .taskProjectKeyEq n]

/-- `p_branch_term`. -/
def p_branch_term (v : String) : Pred :=
  if startswith v "^" then .storyBranchMatches v
  else .storyBranchEq v

/-- `p_tag_term`. -/
def p_tag_term (v : String) : Pred :=
  if startswith v "^" then Pred.tagNameMatches v
  else Pred.tagNameEq v

/-- `p_ref_term`: a `^` value pattern-matches against
`'refs/heads/' + branch`; otherwise the source compares the branch to
`p[2][len('refs/heads/'):]` — an unconditional slice dropping the first
eleven characters, whether or not the value actually starts with
`refs/heads/`. -/
def p_ref_term (v : String) : Pred :=
  if startswith v "^" then .refMatches v
  else .storyBranchEq (v.drop ("refs/heads/".length))

/-- `p_message_term`: `revision.message.like('%%%s%%' % value)`. -/
def p_message_term (v : String) : Pred :=
  .storyKeyIn [.revisionStoryKeyEqStoryKey,
    .revisionMessageLike ("%" ++ v ++ "%")]

/-- `p_comment_term`: union of the comment-message and revision-message
membership sets (comment select first, as in the source's `or_`). -/
def p_comment_term (v : String) : Pred :=
  .or2
    (.storyKeyIn [.revisionStoryKeyEqStoryKey,
      .commentRevisionKeyEqRevisionKey, .commentMessageEq v])
    (.storyKeyIn [.revisionStoryKeyEqStoryKey, .revisionMessageEq v])

/-- `p_has_term`: only `draft` is implemented; everything else raises
the structured syntax error. -/
def p_has_term (v : String) : Except CompileError Pred :=
  if v = "draft" then
    .ok (.storyKeyIn [.revisionStoryKeyEqStoryKey,
      .messageRevisionKeyEqRevisionKey, .messageDraftEqTrue])
  else .error (.searchSyntaxError
    ("Syntax error: has:" ++ v ++ " is not supported"))

/-- `p_is_term`: the eleven supported values, in source order; everything
else raises the structured syntax error. -/
def p_is_term (ctx : Ctx) (v : String) : Except CompileError Pred :=
  if v = "reviewed" then
    .ok (.storyKeyIn [.approvalStoryKeyEqStoryKey, .approvalValueNe 0])
  else if v = "open" then
    .ok (.storyStatusNotIn ["MERGED", "ABANDONED"])
  else if v = "closed" then
    .ok (.storyStatusIn ["MERGED", "ABANDONED"])
  else if v = "submitted" then
    .ok (.storyStatusEq "SUBMITTED")
  else if v = "merged" then
    .ok (.storyStatusEq "MERGED")
  else if v = "abandoned" then
    .ok (.storyStatusEq "ABANDONED")
  else if v = "owner" then
    .ok (.userUsernameEq ctx.username)
  else if v = "starred" then
    .ok .storyStarredEqTrue
  else if v = "held" then
    .ok .storyHeldEqTrue
  else if v = "reviewer" then
    .ok (.storyKeyIn [.approvalStoryKeyEqStoryKey,
      .approvalUserKeyEqUserKey, .userUsernameEq ctx.username])
  else if v = "watched" then
    .ok .projectSubscribedEqTrue
  else .error (.searchSyntaxError
    ("Syntax error: is:" ++ v ++ " is not supported"))

/-- `p_file_term`: equality or pattern match over path/old_path.  The
source's third conjunct `file_table.c.status is not None` is a Python
identity test on the Column object itself, which is always `True`, so it
compiles to the constant true predicate, not to a SQL
`status IS NOT NULL` check. -/
def p_file_term (v : String) : Pred :=
  if startswith v "^" then
    .and2 (.or2 (.filePathMatches v) (.fileOldPathMatches v)) .true_
  else
    .and2 (.or2 (.filePathEq v) (.fileOldPathEq v)) .true_

/-- `p_status_term`: open/closed map to the status sets, anything else
is direct equality. -/
def p_status_term (v : String) : Pred :=
  if v = "open" then .storyStatusNotIn ["MERGED", "ABANDONED"]
  else if v = "closed" then .storyStatusIn ["MERGED", "ABANDONED"]
  else .storyStatusEq v

/-- `p_limit_term`: the source deliberately compiles `limit:` to
`(True == True)`, the Python constant `True`, a no-op predicate. -/
def p_limit_term (_n : Int) : Pred :=
  .true_

/-- Character class `[a-zA-Z0-9_-]` of the label-name group. -/
def isLabelChar (c : Char) : Bool :=
  c.isAlphanum || c == '-' || c == '_'

/-- The candidate matches of the label-name group
`(?P<label>[a-zA-Z0-9_-]+([a-zA-Z]|((?<![-+])[0-9])))` at the start of
`cs`, as (captured label, remaining input), in the order a backtracking
regex engine tries them: the greedy `+` gives characters back one at a
time, so total label lengths are tried in decreasing order; each needs
at least one `+` character, all from the class, and a final letter, or a
final digit whose preceding character is not a sign. -/
def labelSplits (cs : List Char) : List (String × List Char) :=
  ((List.range (cs.length + 1)).reverse).filterMap (fun L =>
    if 2 ≤ L then
      match cs[L-1]?, cs[L-2]? with
      | some ec, some pc =>
        if (cs.take (L-1)).all isLabelChar ∧
            (ec.isAlpha ∨ (ec.isDigit ∧ ¬(pc = '-' ∨ pc = '+'))) then
          some (String.mk (cs.take L), cs.drop L)
        else none
      | _, _ => none
    else none)

/-- The candidate matches of the operator group `(?P<operator>[<>]?=?)`
at the start of `cs`, as (captured operator, remaining input), in
backtracking order (both optional pieces greedy). -/
def opCandidates : List Char → List (String × List Char)
  | c :: rest =>
    if c = '<' ∨ c = '>' then
      match rest with
      | '=' :: r2 =>
        [(String.mk [c, '='], r2), (String.mk [c], rest), ("", c :: rest)]
      | _ => [(String.mk [c], rest), ("", c :: rest)]
    else if c = '=' then [("=", rest), ("", c :: rest)]
    else [("", c :: rest)]
  | [] => [("", [])]

/-- The tail group `($|,(user=)?(?P<user>\S+))` after the value: end of
input captures no user; a comma is followed by an optional literal
`user=` (tried greedily first, falling back to treating it as part of
the user token when nothing non-blank follows it) and then a maximal
nonempty run of non-whitespace characters as the user capture. -/
def matchUserTail : List Char → Option (Option String)
  | [] => some none
  | ',' :: r =>
    let withKey : Option String :=
      if r.take 5 = "user=".toList then
        let u := (r.drop 5).takeWhile (fun c => ¬ c.isWhitespace)
        if u = [] then none else some (String.mk u)
      else none
    match withKey with
    | some u => some (some u)
    | none =>
      let u := r.takeWhile (fun c => ¬ c.isWhitespace)
      if u = [] then none else some (some u.asString)
  | _ => none

/-- The value group `(?P<value>[-+]?[0-9]+)` followed by the user tail.
The digit run is maximal: giving digits back cannot help, because the
tail must start with a comma or the end of input, never a digit, so no
backtracking into this group is modelled. -/
def matchValueTail (cs : List Char) : Option (Int × Option String) :=
  let signAndRest : Int × List Char :=
    match cs with
    | '-' :: r => (-1, r)
    | '+' :: r => (1, r)
    | _ => (1, cs)
  let ds := signAndRest.2.takeWhile Char.isDigit
  let rest := signAndRest.2.dropWhile Char.isDigit
  if ds = [] then none
  else (matchUserTail rest).map
    (fun u => (signAndRest.1 * Int.ofNat (decimalNat ds), u))

/-- `label_re.match(value)`: the anchored match of
`(?P<label>[a-zA-Z0-9_-]+([a-zA-Z]|((?<![-+])[0-9])))`
`(?P<operator>[<>]?=?)(?P<value>[-+]?[0-9]+)($|,(user=)?(?P<user>\S+))`
returning the captured (label, operator, value, user) groups, `none`
when the expression does not match. -/
def label_re_match (s : String) :
    Option (String × String × Int × Option String) :=
  (labelSplits s.toList).findSome? (fun ls =>
    (opCandidates ls.2).findSome? (fun oc =>
      (matchValueTail oc.2).map (fun vu => (ls.1, oc.1, vu.1, vu.2))))

/-- The user-restriction filters of `p_label_term` (source lines
233-241): a join of approvals to users plus the context-username
equality for `self`, or the three-way literal OR otherwise; empty when
no user group was captured. -/
def labelUserFilters (ctx : Ctx) (user : Option String) : List Pred :=
  match user with
  | none => []
  | some u =>
    .approvalUserKeyEqUserKey ::
      (if u = "self" then [.userUsernameEq ctx.username]
       else [.or3 (.userUsernameEq u) (.userEmailEq u) (.userNameEq u)])

/-- `p_label_term`: match `label_re` against the value (a failed match
makes `args.group(...)` raise `AttributeError` in the source), default
an empty captured operator to `=`, then build the membership filters:
the join and category filters, the value comparison — appended only for
`=`, `>=` and `<=`; any other captured operator appends nothing — and
the optional user filters. -/
def p_label_term (ctx : Ctx) (v : String) : Except CompileError Pred :=
  match label_re_match v with
  | none => .error .attributeError
  | some (label, op0, value, user) =>
    let op := if op0 = "" then "=" else op0
    let valueFilters : List Pred :=
      if op = "=" then [.approvalValueEq value]
      else if op = ">=" then [.approvalValueGe value]
      else if op = "<=" then [.approvalValueLe value]
      else []
    .ok (.storyKeyIn
      ([.approvalStoryKeyEqStoryKey, .approvalCategoryEq label] ++
        valueFilters ++ labelUserFilters ctx user))

/-- The token kinds of the tokenizer contract consumed by the grammar:
boolean connectives, negation (`NOT` keyword and the `!`-style `NEG`),
parentheses, numbers, the three string-literal kinds, one token per
recognized operator keyword, and the catch-all `OP` token for an
unrecognized `key:` form. -/
inductive Token where
  | AND
  | OR
  | NOT
  | NEG
  | LPAREN
  | RPAREN
  | NUMBER (n : Int)
  | SSTRING (s : String)
  | DSTRING (s : String)
  | USTRING (s : String)
  | OP_AGE
  | OP_RECENTLYSEEN
  | OP_STORY
  | OP_OWNER
  | OP_REVIEWER
  | OP_COMMIT
  | OP_PROJECT
  | OP_PROJECTS
  | OP_PROJECT_KEY
  | OP_BRANCH
  | OP_TAG
  | OP_REF
  | OP_LABEL
  | OP_MESSAGE
  | OP_COMMENT
  | OP_HAS
  | OP_IS
  | OP_STATUS
  | OP_FILE
  | OP_LIMIT
  | OP
  deriving DecidableEq

/-- A token as yacc sees it: its kind plus its `lexpos`, the character
offset of its lexeme in the query string. -/
structure PTok where
  tok : Token
  pos : Nat
  deriving DecidableEq

/-- The `p_string` production: the three string-literal token kinds all
yield their string value. -/
def strVal : Token → Option String
  | .SSTRING s => some s
  | .DSTRING s => some s
  | .USTRING s => some s
  | _ => none

/-- Whether a token can begin an expression (negation, a parenthesized
group, or any operator token opening a term production, including the
catch-all `OP`).  These are exactly the lookaheads on which the LALR
machine shifts after a completed expression, producing an implicit
conjunction. -/
def startsExpr : Token → Bool
  | .AND => false
  | .OR => false
  | .LPAREN => true
  | .RPAREN => false
  | .NUMBER _ => false
  | .SSTRING _ => false
  | .DSTRING _ => false
  | .USTRING _ => false
  | _ => true

/-- `p_error`: with a current token, the structured error carries the
unconsumed suffix of the query (`lexdata[lexpos:]`), the whole query
string, and the offset; at end of input it is the fixed message
`Syntax error: EOF in search string`, which carries neither. -/
def p_error (lexdata : String) (ts : List PTok) : CompileError :=
  match ts with
  | t :: _ => .searchSyntaxError
      ("Syntax error at \"" ++ lexdata.drop t.pos ++
        "\" in search string \"" ++ lexdata ++ "\" (col " ++
        toString t.pos ++ ")")
  | [] => .searchSyntaxError "Syntax error: EOF in search string"

/-- Require a string-literal token next and continue with its value; a
non-string or exhausted input is a parse error at that point, as in the
LALR machine. -/
def expectStr (q : String) (rest : List PTok)
    (k : String → List PTok → Except CompileError (Pred × List PTok)) :
    Except CompileError (Pred × List PTok) :=
  match rest with
  | s :: rest2 =>
    match strVal s.tok with
    | some v => k v rest2
    | none => .error (p_error q rest)
  | [] => .error (p_error q [])

/-- One term production: consume a recognized operator token and its
fixed argument tokens, handing the values to the matching translator.
A malformed or missing argument is a parse error at the offending
lookahead (or the EOF error).  The catch-all `OP` token reduces
`op_term`, whose body is `raise SyntaxError()`: ply treats that as a
syntax error at the current lookahead, so it lands in `p_error` with
the token after the `OP` token, or with no token at end of input. -/
def parseTerm (ctx : Ctx) (q : String) (ts : List PTok) :
    Except CompileError (Pred × List PTok) :=
  match ts with
  | ⟨.OP_AGE, _⟩ :: ⟨.NUMBER n, _⟩ :: rest =>
    expectStr q rest (fun v r => .ok (p_age_term ctx n v, r))
  | ⟨.OP_AGE, _⟩ :: rest => .error (p_error q rest)
  | ⟨.OP_RECENTLYSEEN, _⟩ :: ⟨.NUMBER n, _⟩ :: rest =>
    expectStr q rest (fun v r => .ok (p_recentlyseen_term n v, r))
  | ⟨.OP_RECENTLYSEEN, _⟩ :: rest => .error (p_error q rest)
  | ⟨.OP_STORY, _⟩ :: ⟨.NUMBER n, _⟩ :: rest => .ok (p_story_term n, rest)
  | ⟨.OP_STORY, _⟩ :: rest => .error (p_error q rest)
  | ⟨.OP_OWNER, _⟩ :: rest =>
    expectStr q rest (fun v r => .ok (p_owner_term ctx v, r))
  | ⟨.OP_REVIEWER, _⟩ :: ⟨.NUMBER n, _⟩ :: rest =>
    .ok (p_reviewer_term ctx (.inl n), rest)
  | ⟨.OP_REVIEWER, _⟩ :: rest =>
    expectStr q rest (fun v r => .ok (p_reviewer_term ctx (.inr v), r))
  | ⟨.OP_COMMIT, _⟩ :: rest =>
    expectStr q rest (fun v r => .ok (p_commit_term v, r))
  | ⟨.OP_PROJECT, _⟩ :: rest =>
    expectStr q rest (fun v r => .ok (p_project_term v, r))
  | ⟨.OP_PROJECTS, _⟩ :: rest =>
    expectStr q rest (fun v r => .ok (p_projects_term v, r))
  | ⟨.OP_PROJECT_KEY, _⟩ :: ⟨.NUMBER n, _⟩ :: rest =>
    .ok (p_project_key_term n, rest)
  | ⟨.OP_PROJECT_KEY, _⟩ :: rest => .error (p_error q rest)
  | ⟨.OP_BRANCH, _⟩ :: rest =>
    expectStr q rest (fun v r => .ok (p_branch_term v, r))
  | ⟨.OP_TAG, _⟩ :: rest =>
    expectStr q rest (fun v r => .ok (p_tag_term v, r))
  | ⟨.OP_REF, _⟩ :: rest =>
    expectStr q rest (fun v r => .ok (p_ref_term v, r))
  | ⟨.OP_LABEL, _⟩ :: rest =>
    expectStr q rest (fun v r =>
      match p_label_term ctx v with
      | .ok p => .ok (p, r)
      | .error e => .error e)
  | ⟨.OP_MESSAGE, _⟩ :: rest =>
    expectStr q rest (fun v r => .ok (p_message_term v, r))
  | ⟨.OP_COMMENT, _⟩ :: rest =>
    expectStr q rest (fun v r => .ok (p_comment_term v, r))
  | ⟨.OP_HAS, _⟩ :: rest =>
    expectStr q rest (fun v r =>
      match p_has_term v with
      | .ok p => .ok (p, r)
      | .error e => .error e)
  | ⟨.OP_IS, _⟩ :: rest =>
    expectStr q rest (fun v r =>
      match p_is_term ctx v with
      | .ok p => .ok (p, r)
      | .error e => .error e)
  | ⟨.OP_STATUS, _⟩ :: rest =>
    expectStr q rest (fun v r => .ok (p_status_term v, r))
  | ⟨.OP_FILE, _⟩ :: rest =>
    expectStr q rest (fun v r => .ok (p_file_term v, r))
  | ⟨.OP_LIMIT, _⟩ :: ⟨.NUMBER n, _⟩ :: rest => .ok (p_limit_term n, rest)
  | ⟨.OP_LIMIT, _⟩ :: rest => .error (p_error q rest)
  | ⟨.OP, _⟩ :: rest => .error (p_error q rest)
  | _ => .error (p_error q ts)

mutual

/-- A unary item: a chain of `NOT`/`NEG` prefixes (the precedence
declaration `('left', 'NOT', 'NEG')` makes the `negative_expr`
reduction win over shifting any unprecedenced lookahead, so negation
applies to the smallest following item), a parenthesized expression, or
a single term. -/
def parseU (ctx : Ctx) (q : String) (ts : List PTok) :
    Except CompileError (Pred × List PTok) :=
  match ts with
  | t :: rest =>
    if t.tok = .NOT ∨ t.tok = .NEG then
      match parseU ctx q rest with
      | .error e => .error e
      | .ok (p, r) => .ok (.not1 p, r)
    else if t.tok = .LPAREN then
      match parseE ctx q rest with
      | .error e => .error e
      | .ok (p, r) =>
        match r with
        | t2 :: r2 =>
          if t2.tok = .RPAREN then .ok (p, r2)
          else .error (p_error q r)
        | [] => .error (p_error q [])
    else parseTerm ctx q ts
  | [] => parseTerm ctx q []
termination_by (ts.length, 0)

/-- An expression: a unary item, optionally continued by `AND`, `OR`,
or — implicit conjunction, the `list_expr` production — directly by
another expression.  All three continuations are shift/reduce conflicts
that ply resolves by shifting (neither `AND`, `OR` nor the term-start
tokens have declared precedence), so the binary tier is
right-associated, with `and_`/`or_` applied exactly as in
`p_boolean_expr` and `p_list_expr`.  The two length guards only
discharge termination; they hold whenever `parseU` succeeds, since a
unary item consumes at least one token. -/
def parseE (ctx : Ctx) (q : String) (ts : List PTok) :
    Except CompileError (Pred × List PTok) :=
  match parseU ctx q ts with
  | .error e => .error e
  | .ok (u, rest) =>
    match rest with
    | [] => .ok (u, [])
    | t :: r2 =>
      if t.tok = .AND then
        if _h : r2.length < ts.length then
          match parseE ctx q r2 with
          | .error e => .error e
          | .ok (b, r3) => .ok (.and2 u b, r3)
        else .error (p_error q r2)
      else if t.tok = .OR then
        if _h : r2.length < ts.length then
          match parseE ctx q r2 with
          | .error e => .error e
          | .ok (b, r3) => .ok (.or2 u b, r3)
        else .error (p_error q r2)
      else if startsExpr t.tok then
        if _h : r2.length + 1 < ts.length then
          match parseE ctx q (t :: r2) with
          | .error e => .error e
          | .ok (b, r3) => .ok (.and2 u b, r3)
        else .error (p_error q (t :: r2))
      else .ok (u, t :: r2)
termination_by (ts.length, 1)

end

/-- Compile a tokenized query: reduce the whole token list to a single
predicate; leftover unreducible tokens, like any parse failure, raise
through `p_error`.  No partial predicate is ever returned. -/
def compile (ctx : Ctx) (q : String) (ts : List PTok) :
    Except CompileError Pred :=
  match parseE ctx q ts with
  | .error e => .error e
  | .ok (p, []) => .ok p
  | .ok (_, r) => .error (p_error q r)

/-- A row of the file table: `old_path` and `status` are nullable. -/
structure FileRow where
  path : String
  old_path : Option String
  status : Option String

/-- Evaluate a predicate that only mentions file columns (plus the
boolean connectives and the constant true) against one file row;
`none` for predicate forms over other tables or the opaque pattern
matcher. -/
def evalFilePred : Pred → FileRow → Option Bool
  | .true_, _ => some true
  | .and2 a b, r =>
    match evalFilePred a r, evalFilePred b r with
    | some x, some y => some (x && y)
    | _, _ => none
  | .or2 a b, r =>
    match evalFilePred a r, evalFilePred b r with
    | some x, some y => some (x || y)
    | _, _ => none
  | .not1 a, r => (evalFilePred a r).map (fun b => !b)
  | .filePathEq s, r => some (r.path == s)
  | .fileOldPathEq s, r => some (r.old_path == some s)
  | _, _ => none

/-- A row of the user table. -/
structure UserRow where
  username : String
  email : String
  name : String

/-- Evaluate a predicate that only mentions user columns (plus the
boolean connectives and the constant true) against one user row. -/
def evalUserPred : Pred → UserRow → Option Bool
  | .true_, _ => some true
  | .and2 a b, r =>
    match evalUserPred a r, evalUserPred b r with
    | some x, some y => some (x && y)
    | _, _ => none
  | .or2 a b, r =>
    match evalUserPred a r, evalUserPred b r with
    | some x, some y => some (x || y)
    | _, _ => none
  | .or3 a b c, r =>
    match evalUserPred a r, evalUserPred b r, evalUserPred c r with
    | some x, some y, some z => some (x || y || z)
    | _, _, _ => none
  | .not1 a, r => (evalUserPred a r).map (fun b => !b)
  | .userUsernameEq s, r => some (r.username == s)
  | .userEmailEq s, r => some (r.email == s)
  | .userNameEq s, r => some (r.name == s)
  | _, _ => none

/-- The age-unit table exactly as the specification states it: the
number of seconds per unit name, one for every unrecognized unit. -/
def specUnitSeconds (unit : String) : Int :=
  if unit ∈ ["seconds", "second", "sec", "s"] then 1
  else if unit ∈ ["minutes", "minute", "min", "m"] then 60
  else if unit ∈ ["hours", "hour", "hr", "h"] then 3600
  else if unit ∈ ["days", "day", "d"] then 86400
  else if unit ∈ ["weeks", "week", "w"] then 604800
  else if unit ∈ ["months", "month", "mon"] then 2592000
  else if unit ∈ ["years", "year", "y"] then 31536000
  else 1

/-- The ref-value transformation as the specification words it: the
`refs/heads/` prefix is stripped when present and the value is left
alone otherwise. -/
def specRefStrip (v : String) : String :=
  if startswith v "refs/heads/" then v.drop ("refs/heads/".length) else v

/-- `ts` is a valid term yielding predicate `a`: the term production
reduces exactly these tokens to `a`, whatever follows them.  Term
productions have a fixed argument arity determined by their leading
operator token, so a term parse is insensitive to the remaining
input. -/
def ValidTerm (ctx : Ctx) (q : String) (ts : List PTok) (a : Pred) : Prop :=
  ∀ ex : List PTok, parseTerm ctx q (ts ++ ex) = .ok (a, ex)

/-- A valid term starts with a recognized operator token: in particular
not with negation, a parenthesis or a connective, and with a token on
which a finished expression to its left shifts (implicit
conjunction). -/
theorem ValidTerm.shape {ctx : Ctx} {q : String} {ts : List PTok} {a : Pred}
    (h : ValidTerm ctx q ts a) :
    ∃ t rest, ts = t :: rest ∧ t.tok ≠ .NOT ∧ t.tok ≠ .NEG ∧
      t.tok ≠ .LPAREN ∧ t.tok ≠ .AND ∧ t.tok ≠ .OR ∧
      startsExpr t.tok = true := by
  have h0 := h []
  rw [List.append_nil] at h0
  match ts, h0 with
  | [], h0 => simp [parseTerm, p_error] at h0
  | t :: rest, h0 =>
    refine ⟨t, rest, rfl, ?_⟩
    obtain ⟨tok, pos⟩ := t
    cases tok <;>
      first
      | (simp [startsExpr]; done)
      | (exfalso; rw [parseTerm.eq_def] at h0; simp at h0)

/-- A valid term's tokens parse as a unary item, leaving exactly the
extra input. -/
theorem parseU_validTerm (ctx : Ctx) (q : String) (ts ex : List PTok)
    (a : Pred) (h : ValidTerm ctx q ts a) :
    parseU ctx q (ts ++ ex) = .ok (a, ex) := by
  obtain ⟨t, rest, heq, hn, hg, hl, -, -, -⟩ := h.shape
  subst heq
  rw [List.cons_append, parseU]
  simpa [hn, hg, hl, List.cons_append] using h ex

/-- A valid term's tokens, alone, parse as a full expression. -/
theorem parseE_validTerm (ctx : Ctx) (q : String) (ts : List PTok)
    (a : Pred) (h : ValidTerm ctx q ts a) :
    parseE ctx q ts = .ok (a, []) := by
  have h1 : parseU ctx q ts = .ok (a, []) := by
    simpa using parseU_validTerm ctx q ts [] a h
  rw [parseE, h1]

/-- Implicit conjunction: two adjacent valid terms reduce through
`list_expr`, i.e. `and_(p[1], p[2])`. -/
theorem parseE_juxtaposition (ctx : Ctx) (q : String) (tA tB : List PTok)
    (a b : Pred) (hA : ValidTerm ctx q tA a) (hB : ValidTerm ctx q tB b) :
    parseE ctx q (tA ++ tB) = .ok (.and2 a b, []) := by
  obtain ⟨t1, r1, hA1, -, -, -, -, -, -⟩ := hA.shape
  obtain ⟨t2, r2, hB1, -, -, -, hBand, hBor, hBstart⟩ := hB.shape
  have h1 : parseU ctx q (tA ++ tB) = .ok (a, tB) :=
    parseU_validTerm ctx q tA tB a hA
  have h2 : parseE ctx q tB = .ok (b, []) := parseE_validTerm ctx q tB b hB
  rw [parseE, h1]
  subst hB1
  subst hA1
  simp [hBand, hBor, hBstart, h2]
  omega

/-- Explicit `AND` between two valid terms reduces through
`p_boolean_expr`, i.e. `and_(p[1], p[3])`. -/
theorem parseE_explicit_and (ctx : Ctx) (q : String) (tA tB : List PTok)
    (a b : Pred) (pos : Nat)
    (hA : ValidTerm ctx q tA a) (hB : ValidTerm ctx q tB b) :
    parseE ctx q (tA ++ ⟨.AND, pos⟩ :: tB) = .ok (.and2 a b, []) := by
  obtain ⟨t1, r1, hA1, -, -, -, -, -, -⟩ := hA.shape
  have h1 : parseU ctx q (tA ++ ⟨.AND, pos⟩ :: tB) = .ok (a, ⟨.AND, pos⟩ :: tB) :=
    parseU_validTerm ctx q tA (⟨.AND, pos⟩ :: tB) a hA
  have h2 : parseE ctx q tB = .ok (b, []) := parseE_validTerm ctx q tB b hB
  rw [parseE, h1]
  simp [h2]
  omega

/-- Explicit `OR` between two valid terms reduces through
`p_boolean_expr`, i.e. `or_(p[1], p[3])`. -/
theorem parseE_explicit_or (ctx : Ctx) (q : String) (tA tB : List PTok)
    (a b : Pred) (pos : Nat)
    (hA : ValidTerm ctx q tA a) (hB : ValidTerm ctx q tB b) :
    parseE ctx q (tA ++ ⟨.OR, pos⟩ :: tB) = .ok (.or2 a b, []) := by
  obtain ⟨t1, r1, hA1, -, -, -, -, -, -⟩ := hA.shape
  have h1 : parseU ctx q (tA ++ ⟨.OR, pos⟩ :: tB) = .ok (a, ⟨.OR, pos⟩ :: tB) :=
    parseU_validTerm ctx q tA (⟨.OR, pos⟩ :: tB) a hA
  have h2 : parseE ctx q tB = .ok (b, []) := parseE_validTerm ctx q tB b hB
  rw [parseE, h1]
  simp [h2]
  omega

/-- C1: for every pair of valid terms A and B, compiling the query
`A B` (two adjacent terms, no connective) yields exactly the predicate
`and_(A', B')` that compiling `A AND B` yields: the implicit-conjunction
production `p_list_expr` and the explicit-`AND` branch of
`p_boolean_expr` build the same AND-composition of the two
sub-predicates. -/
theorem c1_juxtaposition_equals_explicit_and (ctx : Ctx) (q : String)
    (tA tB : List PTok) (a b : Pred) (pos : Nat)
    (hA : ValidTerm ctx q tA a) (hB : ValidTerm ctx q tB b) :
    compile ctx q (tA ++ tB) = .ok (.and2 a b) ∧
    compile ctx q (tA ++ ⟨.AND, pos⟩ :: tB) = .ok (.and2 a b) := by
  constructor
  · rw [compile, parseE_juxtaposition ctx q tA tB a b hA hB]
  · rw [compile, parseE_explicit_and ctx q tA tB a b pos hA hB]

/-- C1 witness: `owner:self status:open` and `owner:self AND status:open`
both compile to the conjunction of the two term predicates. -/
theorem c1_witness :
    compile ⟨"me", 1000⟩ "owner:self status:open"
      ([⟨.OP_OWNER, 0⟩, ⟨.USTRING "self", 6⟩] ++
        [⟨.OP_STATUS, 11⟩, ⟨.USTRING "open", 18⟩]) =
      .ok (.and2 (.userUsernameEq "me")
        (.storyStatusNotIn ["MERGED", "ABANDONED"])) ∧
    compile ⟨"me", 1000⟩ "owner:self status:open"
      ([⟨.OP_OWNER, 0⟩, ⟨.USTRING "self", 6⟩] ++ ⟨.AND, 11⟩ ::
        [⟨.OP_STATUS, 11⟩, ⟨.USTRING "open", 18⟩]) =
      .ok (.and2 (.userUsernameEq "me")
        (.storyStatusNotIn ["MERGED", "ABANDONED"])) :=
  c1_juxtaposition_equals_explicit_and ⟨"me", 1000⟩ "owner:self status:open"
    [⟨.OP_OWNER, 0⟩, ⟨.USTRING "self", 6⟩]
    [⟨.OP_STATUS, 11⟩, ⟨.USTRING "open", 18⟩]
    (.userUsernameEq "me") (.storyStatusNotIn ["MERGED", "ABANDONED"]) 11
    (fun _ => rfl) (fun _ => rfl)

/-- C2: unary negation binds more tightly than the binary connectives:
for all valid terms A and B, `NOT A OR B` compiles to
`or_(not_(A'), B')`, which is not the predicate `not_(or_(A', B'))`. -/
theorem c2_not_binds_tighter_than_or (ctx : Ctx) (q : String)
    (tA tB : List PTok) (a b : Pred) (p0 p1 : Nat)
    (hA : ValidTerm ctx q tA a) (hB : ValidTerm ctx q tB b) :
    compile ctx q (⟨.NOT, p0⟩ :: (tA ++ ⟨.OR, p1⟩ :: tB)) =
      .ok (.or2 (.not1 a) b) ∧
    Pred.or2 (.not1 a) b ≠ .not1 (.or2 a b) := by
  refine ⟨?_, by simp⟩
  have h1 : parseU ctx q (tA ++ ⟨.OR, p1⟩ :: tB) = .ok (a, ⟨.OR, p1⟩ :: tB) :=
    parseU_validTerm ctx q tA (⟨.OR, p1⟩ :: tB) a hA
  have hu : parseU ctx q (⟨.NOT, p0⟩ :: (tA ++ ⟨.OR, p1⟩ :: tB)) =
      .ok (.not1 a, ⟨.OR, p1⟩ :: tB) := by
    rw [parseU]
    simp [h1]
  have h2 : parseE ctx q tB = .ok (b, []) := parseE_validTerm ctx q tB b hB
  have hguard : tB.length < tA.length + (tB.length + 1) + 1 := by omega
  rw [compile, parseE, hu]
  simp [hguard, h2]

/-- C2 witness: `NOT status:open OR status:closed` compiles to
`(NOT status:open) OR status:closed`. -/
theorem c2_witness :
    compile ⟨"me", 1000⟩ "NOT status:open OR status:closed"
      (⟨.NOT, 0⟩ :: ([⟨.OP_STATUS, 4⟩, ⟨.USTRING "open", 11⟩] ++ ⟨.OR, 16⟩ ::
        [⟨.OP_STATUS, 19⟩, ⟨.USTRING "closed", 26⟩])) =
      .ok (.or2 (.not1 (.storyStatusNotIn ["MERGED", "ABANDONED"]))
        (.storyStatusIn ["MERGED", "ABANDONED"])) ∧
    Pred.or2 (.not1 (.storyStatusNotIn ["MERGED", "ABANDONED"]))
        (.storyStatusIn ["MERGED", "ABANDONED"]) ≠
      .not1 (.or2 (.storyStatusNotIn ["MERGED", "ABANDONED"])
        (.storyStatusIn ["MERGED", "ABANDONED"])) :=
  c2_not_binds_tighter_than_or ⟨"me", 1000⟩ "NOT status:open OR status:closed"
    [⟨.OP_STATUS, 4⟩, ⟨.USTRING "open", 11⟩]
    [⟨.OP_STATUS, 19⟩, ⟨.USTRING "closed", 26⟩]
    (.storyStatusNotIn ["MERGED", "ABANDONED"])
    (.storyStatusIn ["MERGED", "ABANDONED"]) 0 16
    (fun _ => rfl) (fun _ => rfl)

/-- C3: `is:open` and `status:open` compile to the identical predicate,
`Story.status` not in {MERGED, ABANDONED}; `is:closed` and
`status:closed` both compile to `Story.status` in {MERGED, ABANDONED},
for every parse context. -/
theorem c3_is_and_status_share_open_closed (ctx : Ctx) :
    p_is_term ctx "open" = .ok (.storyStatusNotIn ["MERGED", "ABANDONED"]) ∧
    p_status_term "open" = .storyStatusNotIn ["MERGED", "ABANDONED"] ∧
    p_is_term ctx "closed" = .ok (.storyStatusIn ["MERGED", "ABANDONED"]) ∧
    p_status_term "closed" = .storyStatusIn ["MERGED", "ABANDONED"] :=
  ⟨rfl, rfl, rfl, rfl⟩

/-- C4: for every count and unit string, the age term compiles to
`Story.updated < now − duration`, where the duration multiplies the
count by the spec's per-unit number of seconds (1 for s/sec/second(s),
60 for m/min/minute(s), 3600 for h/hr/hour(s), 86400 for d/day(s),
604800 for w/week(s), 2592000 for mon/month(s), 31536000 for
y/year(s)), and leaves the count unscaled for every unrecognized
unit. -/
theorem c4_age_compiles_per_unit_table (ctx : Ctx) (n : Int) (u : String) :
    p_age_term ctx n u = .storyUpdatedLt (ctx.now - age_to_delta n u) ∧
    age_to_delta n u = n * specUnitSeconds u := by
  refine ⟨rfl, ?_⟩
  unfold age_to_delta specUnitSeconds
  split_ifs <;> ring

/-- C5 counterexample: the label value `foo<1` (captured operator `<`)
compiles to a membership predicate with no value comparison at all,
which differs from the compilation of `foo=1` — so a captured operator
outside {`=`, `>=`, `<=`} is not treated as if it had been `=`. -/
theorem c5_counterexample :
    p_label_term ⟨"me", 0⟩ "foo<1" = .ok (.storyKeyIn
      [.approvalStoryKeyEqStoryKey, .approvalCategoryEq "foo"]) ∧
    p_label_term ⟨"me", 0⟩ "foo=1" = .ok (.storyKeyIn
      [.approvalStoryKeyEqStoryKey, .approvalCategoryEq "foo",
        .approvalValueEq 1]) ∧
    (Pred.storyKeyIn [.approvalStoryKeyEqStoryKey, .approvalCategoryEq "foo"] ≠
      .storyKeyIn [.approvalStoryKeyEqStoryKey, .approvalCategoryEq "foo",
        .approvalValueEq 1]) :=
  ⟨rfl, rfl, by simp⟩

/-- C5 amended: when the captured comparison operator is `<` or `>`,
the compiled membership predicate omits the value comparison entirely:
it constrains only the approval join, the category, and the optional
user restriction, leaving `Approval.value` unconstrained. -/
theorem c5_amended_lt_gt_omit_value_filter (ctx : Ctx) (s lab op : String)
    (value : Int) (user : Option String)
    (h : label_re_match s = some (lab, op, value, user))
    (hop : op = "<" ∨ op = ">") :
    p_label_term ctx s = .ok (.storyKeyIn
      ([.approvalStoryKeyEqStoryKey, .approvalCategoryEq lab] ++
        labelUserFilters ctx user)) := by
  unfold p_label_term
  rw [h]
  rcases hop with h1 | h1 <;> subst h1 <;> simp

/-- C5 witness: `CR>2` compiles to the membership predicate without any
value filter. -/
theorem c5_witness :
    p_label_term ⟨"me", 0⟩ "CR>2" = .ok (.storyKeyIn
      ([.approvalStoryKeyEqStoryKey, .approvalCategoryEq "CR"] ++
        labelUserFilters ⟨"me", 0⟩ none)) :=
  c5_amended_lt_gt_omit_value_filter ⟨"me", 0⟩ "CR>2" "CR" ">" 2 none rfl
    (Or.inr rfl)

/-- C6: every `has:` value other than `draft`, and every `is:` value
outside the eleven supported ones, raises the structured syntax error
with the source's message; no predicate — in particular no always-true
or always-false predicate — is returned. -/
theorem c6_unsupported_has_is_fail_closed :
    (∀ v : String, v ≠ "draft" →
      p_has_term v = .error (.searchSyntaxError
        ("Syntax error: has:" ++ v ++ " is not supported"))) ∧
    (∀ (ctx : Ctx) (v : String),
      v ∉ ["reviewed", "open", "closed", "submitted", "merged",
        "abandoned", "owner", "starred", "held", "reviewer", "watched"] →
      p_is_term ctx v = .error (.searchSyntaxError
        ("Syntax error: is:" ++ v ++ " is not supported"))) := by
  constructor
  · intro v hv
    simp [p_has_term, hv]
  · intro ctx v hv
    simp only [List.mem_cons, List.not_mem_nil, or_false, not_or] at hv
    obtain ⟨h1, h2, h3, h4, h5, h6, h7, h8, h9, h10, h11⟩ := hv
    simp [p_is_term, h1, h2, h3, h4, h5, h6, h7, h8, h9, h10, h11]

/-- C6 witness: `has:star` and `is:bogus` both abort with the structured
error. -/
theorem c6_witness :
    p_has_term "star" = .error (.searchSyntaxError
      ("Syntax error: has:" ++ "star" ++ " is not supported")) ∧
    p_is_term ⟨"me", 0⟩ "bogus" = .error (.searchSyntaxError
      ("Syntax error: is:" ++ "bogus" ++ " is not supported")) :=
  ⟨c6_unsupported_has_is_fail_closed.1 "star" (by decide),
   c6_unsupported_has_is_fail_closed.2 ⟨"me", 0⟩ "bogus" (by decide)⟩

/-- C7 counterexample: compiling two different query strings that each
tokenize to a lone unrecognized operator token yields the identical
error value, the fixed end-of-input message — so that error cannot be
carrying the original query string (nor any offset); and a label term
whose value fails the label micro-grammar aborts with the
non-structured attribute error rather than the structured syntax
error. -/
theorem c7_counterexample :
    compile ⟨"me", 0⟩ "foo:" [⟨.OP, 0⟩] =
      .error (.searchSyntaxError "Syntax error: EOF in search string") ∧
    compile ⟨"me", 0⟩ "somethingelse:" [⟨.OP, 0⟩] =
      .error (.searchSyntaxError "Syntax error: EOF in search string") ∧
    p_label_term ⟨"me", 0⟩ "a-1" = .error .attributeError := by
  refine ⟨?_, ?_, rfl⟩
  · simp [compile, parseE, parseU, parseTerm, p_error]
  · simp [compile, parseE, parseU, parseTerm, p_error]

/-- C7 amended: a standalone operator token (the `op_term` production)
always aborts the compile with the structured syntax error and no
predicate is returned: when another token follows, the error carries
the unconsumed input, the whole query string and the offset of failure;
at end of input it carries only the fixed EOF message, without the
query string or an offset. -/
theorem c7_op_term_always_structured_failure :
    (∀ (ctx : Ctx) (q : String) (pos : Nat),
      compile ctx q [⟨.OP, pos⟩] =
        .error (.searchSyntaxError "Syntax error: EOF in search string")) ∧
    (∀ (ctx : Ctx) (q : String) (pos : Nat) (t : PTok) (r : List PTok),
      compile ctx q (⟨.OP, pos⟩ :: t :: r) =
        .error (.searchSyntaxError
          ("Syntax error at \"" ++ q.drop t.pos ++ "\" in search string \"" ++
            q ++ "\" (col " ++ toString t.pos ++ ")"))) := by
  constructor
  · intro ctx q pos
    simp [compile, parseE, parseU, parseTerm, p_error]
  · intro ctx q pos t r
    simp [compile, parseE, parseU, parseTerm, p_error]

/-- C8 (code bug): the file term's compiled status conjunct is the
constant true — the Python expression `file_table.c.status is not None`
tests the Column object's identity, not the column's nullity — so a
file row whose status is NULL satisfies `file:foo.txt`, although both
the specification and the code's visible intent require File.status to
be non-null. -/
theorem c8_file_term_null_status_row_matches :
    p_file_term "foo.txt" =
      .and2 (.or2 (.filePathEq "foo.txt") (.fileOldPathEq "foo.txt"))
        .true_ ∧
    evalFilePred (p_file_term "foo.txt")
      { path := "foo.txt", old_path := some "bar", status := none } =
      some true :=
  ⟨rfl, rfl⟩

/-- C9 counterexample: for the value `master`, which does not start with
`refs/heads/`, the compiled predicate compares the branch against the
empty string (the value with its first eleven characters removed), not
against the prefix-stripped value `master`. -/
theorem c9_counterexample :
    p_ref_term "master" = .storyBranchEq "" ∧
    specRefStrip "master" = "master" ∧
    p_ref_term "master" ≠ .storyBranchEq (specRefStrip "master") := by
  have h1 : p_ref_term "master" = .storyBranchEq "" := rfl
  have h2 : specRefStrip "master" = "master" := rfl
  refine ⟨h1, h2, ?_⟩
  rw [h1, h2]
  simp

/-- C9 amended: a `^` value compiles to the pattern match against
`refs/heads/` + branch; any other value compiles to an equality of the
branch against the value with its first `len("refs/heads/") = 11`
characters removed unconditionally — which coincides with stripping the
`refs/heads/` prefix exactly when the value starts with that prefix —
and the two code paths are mutually exclusive. -/
theorem c9_amended_ref_unconditional_slice (v : String) :
    (startswith v "^" = true → p_ref_term v = .refMatches v) ∧
    (startswith v "^" = false →
      p_ref_term v = .storyBranchEq (v.drop ("refs/heads/".length))) ∧
    (startswith v "^" = false → startswith v "refs/heads/" = true →
      p_ref_term v = .storyBranchEq (specRefStrip v)) :=
  ⟨fun h => by simp [p_ref_term, h],
   fun h => by simp [p_ref_term, h],
   fun h h2 => by simp [p_ref_term, specRefStrip, h, h2]⟩

/-- C9 witness: a prefixed value is stripped, a `^` value
pattern-matches. -/
theorem c9_witness :
    p_ref_term "refs/heads/master" =
      .storyBranchEq (specRefStrip "refs/heads/master") ∧
    p_ref_term "^refs/heads/rel.*" = .refMatches "^refs/heads/rel.*" :=
  ⟨(c9_amended_ref_unconditional_slice "refs/heads/master").2.2 rfl rfl,
   (c9_amended_ref_unconditional_slice "^refs/heads/rel.*").1 rfl⟩

/-- C10 counterexample: an owner term with another argument still
matches a user one of whose literal fields is the string `self` (here
the email, via the username disjunct), and `owner:self` itself matches
a user literally named `self` whenever the context username is `self`
— so it is not true that no owner term can ever match a user whose
literal username, email, or name is `self`. -/
theorem c10_counterexample :
    evalUserPred (p_owner_term ⟨"me", 0⟩ "bob")
      { username := "bob", email := "self", name := "Bob" } = some true ∧
    evalUserPred (p_owner_term ⟨"self", 0⟩ "self")
      { username := "self", email := "e", name := "n" } = some true :=
  ⟨rfl, rfl⟩

/-- C10 amended: the `self` check does come first: `owner:self` always
compiles to an equality of User.username against the parse context's
current username, for every context, so the argument `self` is never
matched literally against username, email or name. -/
theorem c10_amended_self_checked_first (ctx : Ctx) :
    p_owner_term ctx "self" = .userUsernameEq ctx.username := rfl

end Boartty
